import Mathlib

/-!
Verification of the zedux repository's natural-language specification against its
source. The definitions below are shallow embeddings of the TypeScript source files;
where the deciding code is not under src/ (the graph and ecosystem internals, whose
only callers and constants appear in src/), the definition is modelled from the spec
and marked as such in its doc comment.
-/

namespace Zedux

/-! ## Edge flag constants

Source: src/packages/react/src/store/actions.ts, lines 23-26 (`Explicit = 1`,
`External = 2`, `Static = 4`). -/

def Explicit : Nat := 1

def External : Nat := 2

def Static : Nat := 4

/-! ## ActiveState

Source: src/unnamed/part_000, lines 33-38. The enum members, in source order, are
`Active`, `Destroyed`, `Destroying`, `Initializing`, each with its name as its
string value. -/

inductive ActiveState
  | Active
  | Destroyed
  | Destroying
  | Initializing
deriving DecidableEq

/-- String value of each `ActiveState` enum member, as assigned in the source
(`Active = 'Active'`, etc.). -/
def ActiveState.toStr : ActiveState → String
  | .Active => "Active"
  | .Destroyed => "Destroyed"
  | .Destroying => "Destroying"
  | .Initializing => "Initializing"

/-! ## JavaScript value model for `isPlainObject`

Source: src/packages/react/src/store/actions.ts, lines 106-114. The code observes a
value through `typeof`, truthiness, and `Object.getPrototypeOf` (applied at most
twice). JS values are modelled by the standard shapes those observations
distinguish; an object's prototype chain is recorded by its length (`vPlainObject`
has chain `[Object.prototype]`, `vArray` has `[Array.prototype, Object.prototype]`,
`vNoProtoObject` comes from `Object.create(null)`, and `vComplexObject k` has a
chain of length `k + 2`). -/

inductive JSValue
  | vNull
  | vUndefined
  | vBool (b : Bool)
  | vNum (n : Int)
  | vStr (s : String)
  | vFunction
  | vArray
  | vPlainObject
  | vNoProtoObject
  | vComplexObject (extra : Nat)
deriving DecidableEq

/-- The JS `typeof` operator on the modelled values. -/
def jsTypeof : JSValue → String
  | .vNull => "object"
  | .vUndefined => "undefined"
  | .vBool _ => "boolean"
  | .vNum _ => "number"
  | .vStr _ => "string"
  | .vFunction => "function"
  | .vArray => "object"
  | .vPlainObject => "object"
  | .vNoProtoObject => "object"
  | .vComplexObject _ => "object"

/-- JS truthiness of the modelled values (`!value` is the negation of this). -/
def jsTruthy : JSValue → Bool
  | .vNull => false
  | .vUndefined => false
  | .vBool b => b
  | .vNum n => n != 0
  | .vStr s => s != ""
  | .vFunction => true
  | .vArray => true
  | .vPlainObject => true
  | .vNoProtoObject => true
  | .vComplexObject _ => true

/-- Length of the prototype chain above a value (boxed primitives get their standard
two-link chain, e.g. `Number.prototype` then `Object.prototype`; `null` and
`undefined` have none). -/
def protoChainLen : JSValue → Nat
  | .vNull => 0
  | .vUndefined => 0
  | .vBool _ => 2
  | .vNum _ => 2
  | .vStr _ => 2
  | .vFunction => 2
  | .vArray => 2
  | .vPlainObject => 1
  | .vNoProtoObject => 0
  | .vComplexObject extra => extra + 2

/-- `Object.getPrototypeOf(value)`: `none` models a `null` prototype; `some k` is a
prototype object whose own prototype chain has length `k`. -/
def getPrototypeOf (value : JSValue) : Option Nat :=
  match protoChainLen value with
  | 0 => none
  | Nat.succ k => some k

/-- `Object.getPrototypeOf(prototype)` for a prototype object with remaining chain
length `k`: `none` models a `null` result. -/
def protoOfProto (k : Nat) : Option Nat :=
  match k with
  | 0 => none
  | Nat.succ j => some j

/-- The `isPlainObject` function (src/packages/react/src/store/actions.ts, lines
106-114), translated clause by clause: reject non-objects and falsy values, reject a
null prototype, then accept exactly when the prototype's prototype is null. -/
def isPlainObject (value : JSValue) : Bool :=
  if jsTypeof value ≠ "object" ∨ jsTruthy value = false then false
  else
    match getPrototypeOf value with
    | none => false
    | some prototype => (protoOfProto prototype).isNone

/-! ## useAtom

Source: src/unnamed/part_001, lines 97-113. The hook's first argument is a key
(string or `[string, ...params]` array) or an options object; a falsy first argument
throws a `TypeError` before any atom is built. -/

inductive JsError
  | typeError (msg : String)
deriving DecidableEq

/-- The shapes the first argument of `useAtom` can take: `null`/`undefined`, a string
key, a `[string, ...Params]` array, or an options object carrying the key. -/
inductive UseAtomKeyArg (α : Type)
  | nullArg
  | strKey (s : String)
  | arrKey (head : String) (rest : List α)
  | objConfig (key : String)
deriving DecidableEq

/-- JS falsiness of the first `useAtom` argument (`!paramA`): `null`/`undefined` and
the empty string are falsy; arrays and objects are always truthy. -/
def keyArgFalsy : UseAtomKeyArg α → Bool
  | .nullArg => true
  | .strKey s => s == ""
  | .arrKey _ _ => false
  | .objConfig _ => false

/-- What `useAtom` produced when it did not throw: the key stored on the new atom and
the params passed on for instantiation. -/
structure UseAtomResult (α : Type) where
  key : String
  params : Option (List α)
deriving DecidableEq

/-- The `useAtom` body (src/unnamed/part_001, lines 97-113): `params` is
`paramA.slice(1)` for the array form and `undefined` otherwise; a falsy `paramA`
throws `TypeError('Zedux - All atoms must have a key')` before any atom is created;
otherwise the atom's key is the array's first element (array form), the string
itself, or the options object's key. -/
def useAtom (paramA : UseAtomKeyArg α) : Except JsError (UseAtomResult α) :=
  let params : Option (List α) :=
    match paramA with
    | .arrKey _ rest => some rest
    | _ => none
  if keyArgFalsy paramA then
    Except.error (JsError.typeError "Zedux - All atoms must have a key")
  else
    let key : String :=
      match paramA with
      | .objConfig k => k
      | .arrKey h _ => h
      | .strKey s => s
      | .nullArg => ""
    Except.ok { key := key, params := params }

/-! ## Suspension logic of useAtomInstance

Source: src/packages/react/src/hooks/useAtomInstance.ts, lines 129-137: unless the
`suspend` config is `false`, the hook throws `instance.promise` while
`_promiseStatus` is `'loading'` and `instance._promiseError` while it is `'error'`;
otherwise the instance is returned. -/

inductive PromiseStatus
  | idle
  | loading
  | success
  | error
deriving DecidableEq

/-- The promise-related fields of an atom instance that the hook tail reads. -/
structure SuspInstance (π ε : Type) where
  promise : Option π
  promiseStatus : PromiseStatus
  promiseError : Option ε
deriving DecidableEq

/-- What the hook tail throws: the instance's promise, or its promise error. -/
inductive Thrown (π ε : Type)
  | promiseVal (p : Option π)
  | errorVal (e : Option ε)
deriving DecidableEq

/-- The tail of `useAtomInstance` (src/packages/react/src/hooks/useAtomInstance.ts,
lines 129-139): with `suspend !== false`, throw the promise on `'loading'` and the
promise error on `'error'`; in every other case return the instance. The `suspend`
config value is `boolean | undefined`, modelled as `Option Bool`. -/
def suspendCheck (suspend : Option Bool) (inst : SuspInstance π ε) :
    Except (Thrown π ε) (SuspInstance π ε) :=
  if suspend ≠ some false then
    if inst.promiseStatus = .loading then Except.error (Thrown.promiseVal inst.promise)
    else if inst.promiseStatus = .error then Except.error (Thrown.errorVal inst.promiseError)
    else Except.ok inst
  else Except.ok inst

/-! ## Graph model

The Graph component's implementation is not under src/: only its callers
(src/packages/react/src/hooks/useAtomInstance.ts) and the flag constants
(src/packages/react/src/store/actions.ts) are. Its operations are therefore
modelled from the spec, section 4.2. -/

/-- A graph edge, as in the spec's data model: `{ fromId, toId, flags, operation,
notify }`. The notify callback is represented by an opaque tag of type `ν`. -/
structure Edge (ν : Type) where
  fromId : String
  toId : String
  flags : Nat
  notify : ν
  op : String
deriving DecidableEq

/-- The edge set of the graph. -/
structure Graph (ν : Type) where
  edges : List (Edge ν)
deriving DecidableEq

/-- Does an edge with the given endpoints exist? -/
def Graph.hasEdge (g : Graph ν) (fromId toId : String) : Bool :=
  g.edges.any fun e => e.fromId == fromId && e.toId == toId

/-- Modelled from the spec: `addEdge(fromId, toId, flags, notify, operation)` of the
Graph component (spec 4.2), whose implementation is not under src/. It is idempotent
on `(fromId, toId)`: if an edge with those endpoints exists, its flags are OR-merged
with the new flags and the notify callback is not replaced; otherwise the new edge is
inserted. -/
def addEdge (g : Graph ν) (fromId toId : String) (flags : Nat) (notify : ν)
    (op : String) : Graph ν :=
  if g.hasEdge fromId toId then
    ⟨g.edges.map fun e =>
      if e.fromId == fromId && e.toId == toId then
        { e with flags := e.flags ||| flags }
      else e⟩
  else
    ⟨g.edges ++ [⟨fromId, toId, flags, notify, op⟩]⟩

/-- The edges of `g` between the two given endpoints. -/
def edgesBetween (g : Graph ν) (fromId toId : String) : List (Edge ν) :=
  g.edges.filter fun e => e.fromId == fromId && e.toId == toId

/-- The dependents of node `toId`: the `from` endpoints of all its incoming dependent
edges, Static ones included (every edge pins the dependency's lifetime). -/
def dependentsOf (g : Graph ν) (toId : String) : List String :=
  (g.edges.filter fun e => e.toId == toId).map (·.fromId)

/-- The signals the graph delivers along edges: `stateChanged` on a state change of
the dependency, `destroyed` on its destruction. -/
inductive Signal
  | stateChanged
  | destroyed
deriving DecidableEq

/-- Modelled from the spec: which signals an edge with the given flags delivers
(spec 3 and 4.2, Graph internals not under src/): a `Static` edge still pins
lifetime but suppresses `stateChanged` delivery; destroy signals are delivered on
every edge. -/
def deliversOn (flags : Nat) (sig : Signal) : Bool :=
  match sig with
  | .destroyed => true
  | .stateChanged => flags &&& Static == 0

/-- Modelled from the spec: the edges into `toId` along which the graph delivers
`sig` (spec 4.2, `scheduleNotify`; Graph internals not under src/). -/
def deliveredEdges (g : Graph ν) (toId : String) (sig : Signal) : List (Edge ν) :=
  g.edges.filter fun e => e.toId == toId && deliversOn e.flags sig

/-- The edge flags `useAtomInstance` passes when registering its graph edge
(src/packages/react/src/hooks/useAtomInstance.ts, line 97):
`External | (subscribe ? 0 : Static)`, with `subscribe : boolean | undefined`. -/
def useAtomInstanceFlags (subscribe : Option Bool) : Nat :=
  External ||| (if subscribe = some true then 0 else Static)

/-! ## removeEdge and ttl-based destruction

Modelled from the spec, section 4.2: the Graph's `removeEdge` is not under src/
(only the hook cleanup that calls it is, src/packages/react/src/hooks/
useAtomInstance.ts, lines 119-127). -/

/-- A registered node together with its template's ttl (`none` = no ttl configured,
the node is never auto-destroyed). -/
structure NodeRec where
  id : String
  ttl : Option Nat
deriving DecidableEq

/-- Graph-plus-registry state for the `removeEdge` model: live nodes, edges, the
nodes marked eligible for ttl-based destruction, and the nodes already destroyed. -/
structure GraphState (ν : Type) where
  nodes : List NodeRec
  edges : List (Edge ν)
  eligible : List String
  destroyedIds : List String
deriving DecidableEq

/-- The ttl of the node registered under `id`. -/
def ttlOf (st : GraphState ν) (id : String) : Option Nat :=
  (st.nodes.find? fun n => n.id == id).bind (·.ttl)

/-- Modelled from the spec: `removeEdge(fromId, toId)` of the Graph component
(spec 4.2), whose implementation is not under src/: the edge is removed; if it was
the last dependent of `toId`, `toId` is marked eligible for ttl-based destruction,
and if `toId`'s ttl is 0 it is destroyed immediately, synchronously within this
step. -/
def removeEdge (st : GraphState ν) (fromId toId : String) : GraphState ν :=
  let edges2 := st.edges.filter fun e => !(e.fromId == fromId && e.toId == toId)
  if edges2.any (fun e => e.toId == toId) then
    { st with edges := edges2 }
  else if ttlOf st toId = some 0 then
    { st with
      edges := edges2
      nodes := st.nodes.filter fun n => !(n.id == toId)
      destroyedIds := toId :: st.destroyedIds }
  else
    { st with edges := edges2, eligible := toId :: st.eligible }

/-! ## Ecosystem model

The Ecosystem's implementation is not under src/: only its callers are
(src/packages/react/src/hooks/useAtomInstance.ts and useAtomInstanceDynamic.ts).
`getNode` resolution and the override table are therefore modelled from the spec,
sections 4.1, 4.3 and 4.6. -/

/-- An atom template: a key and an opaque factory behavior tag. -/
structure Template where
  key : String
  factory : String
deriving DecidableEq

/-- A structural parameter value (plain data: numbers, strings, booleans). -/
inductive ParamAtom
  | pNum (n : Int)
  | pStr (s : String)
  | pBool (b : Bool)
deriving DecidableEq

/-- Modelled from the spec: the deep structural hash of one parameter (spec 4.1,
"deep structural hash for plain data containers"; the Ecosystem's hashing code is
not under src/). -/
def hashParam : ParamAtom → String
  | .pNum n => "n:" ++ toString n
  | .pStr s => "s:" ++ s
  | .pBool b => "b:" ++ toString b

/-- Modelled from the spec: the structural hash of a parameter list (spec 4.1). -/
def hashParams (ps : List ParamAtom) : String :=
  String.intercalate "," (ps.map hashParam)

/-- A live atom instance as the ecosystem model records it. -/
structure AtomInst where
  id : String
  templateKey : String
  paramsHash : String
  factory : String
  activeState : ActiveState
deriving DecidableEq

/-- Lookup in an association list keyed by strings. -/
def lookupL (l : List (String × α)) (k : String) : Option α :=
  (l.find? fun p => p.1 == k).map (·.2)

/-- The ecosystem model: the node registry, the override table, the dependent
edges, the record of destroyed instances, and the ordered list of notifications
delivered to dependents. -/
structure Eco (ν : Type) where
  nodes : List (String × AtomInst)
  overridesById : List (String × Template)
  edges : List (Edge ν)
  destroyedInstances : List AtomInst
  notifications : List (String × Signal)
deriving DecidableEq

/-- Modelled from the spec: resolution of the effective template through the
override table (spec 4.3, step 1; Ecosystem internals not under src/). -/
def resolveTemplate (eco : Eco ν) (t : Template) : Template :=
  (lookupL eco.overridesById t.key).getD t

/-- Modelled from the spec: `Ecosystem.getNode(template, params?)` (spec 4.1 and
4.3; Ecosystem internals not under src/, only its caller `useAtomInstance` is):
resolve the effective template through the override table, compute the instance id
`templateKey-paramsHash`, return the registered instance when one exists, and
otherwise construct, register and return a new instance. -/
def getNode (eco : Eco ν) (t : Template) (ps : List ParamAtom) :
    AtomInst × Eco ν :=
  let eff := resolveTemplate eco t
  let id := eff.key ++ "-" ++ hashParams ps
  match lookupL eco.nodes id with
  | some inst => (inst, eco)
  | none =>
    let inst : AtomInst := ⟨id, eff.key, hashParams ps, eff.factory, .Active⟩
    (inst, { eco with nodes := (id, inst) :: eco.nodes })

/-- Modelled from the spec: `Ecosystem.overrides(list)` (spec 4.1 and 4.6;
Ecosystem internals not under src/): every live instance whose template key is
overridden by the list is destroyed (removed from the registry, recorded as
`Destroyed`, its edges dropped) and each of its dependents is delivered a
`destroyed` notification; the new override table is committed atomically. -/
def applyOverrides (eco : Eco ν) (list : List Template) : Eco ν :=
  let isMarked := fun (inst : AtomInst) => list.any fun t => t.key == inst.templateKey
  let markedIds := (eco.nodes.filter fun p => isMarked p.2).map (·.1)
  let notifs :=
    (eco.edges.filter fun e => markedIds.contains e.toId).map fun e =>
      (e.fromId, Signal.destroyed)
  { nodes := eco.nodes.filter fun p => !isMarked p.2
    overridesById := list.map fun t => (t.key, t)
    edges := eco.edges.filter fun e => !markedIds.contains e.toId
    destroyedInstances :=
      eco.destroyedInstances ++
        (eco.nodes.filter fun p => isMarked p.2).map fun p =>
          { p.2 with activeState := ActiveState.Destroyed }
    notifications := eco.notifications ++ notifs }

/-- How an external dynamic dependent reacts to a graph signal: re-resolve the atom
instance, or store the delivered state value. -/
inductive DependentReaction (σ : Type)
  | reResolveInstance
  | receiveState (val : σ)
deriving DecidableEq

/-- The dynamic dependent callback registered by `useAtomInstanceDynamic`
(src/packages/react/src/hooks/useAtomInstanceDynamic.ts, lines 49-63): on a
`Destroyed` signal it force-renders, which re-runs the memo and re-resolves the
instance; on a state-change signal it stores the new state value in React state. -/
def dynamicDependentCallback (sig : Signal) (val : σ) : DependentReaction σ :=
  match sig with
  | .destroyed => .reResolveInstance
  | .stateChanged => .receiveState val

/-! ## Devtools Log filtering

Source: src/packages/react/src/devtools/StateHub/components/Log/index.tsx, lines
61-161: the `filteredLog` memo of the `Log` component. -/

/-- The edge fields the log filter reads (`edge.isExplicit`, `edge.isExternal`,
`edge.isStatic`). -/
structure EdgeInfo where
  isExplicit : Bool
  isExternal : Bool
  isStatic : Bool
deriving DecidableEq

/-- The instance fields the log filter reads (`instance.atom.key`,
`instance.atom.flags`, `instance.keyHash`, `instance._activeState`). -/
structure InstInfo where
  atomKey : String
  atomFlags : Option (List String)
  keyHash : String
  activeState : String
deriving DecidableEq

/-- The `dependent` payload field of edge events: a plain string id or an
instance (`typeof dependent !== 'string'`). -/
inductive Dependent
  | depId (s : String)
  | depInst (i : InstInfo)
deriving DecidableEq

/-- A log event's action: the six filterable types with the payload fields the
filter reads, and `otherAction` for every other action type. -/
inductive LogAction
  | edgeCreated (dependency : InstInfo) (dependent : Dependent) (edge : EdgeInfo)
  | edgeRemoved (dependency : InstInfo) (dependent : Dependent) (edge : EdgeInfo)
  | ghostEdgeCreated (edge : EdgeInfo) (dependency : InstInfo)
  | ghostEdgeDestroyed (edge : EdgeInfo) (dependency : InstInfo)
  | instanceActiveStateChanged (inst : InstInfo)
  | instanceStateChanged (inst : InstInfo)
  | otherAction (type : String)
deriving DecidableEq

/-- The `action.type` string of a log action. -/
def LogAction.typeStr : LogAction → String
  | .edgeCreated _ _ _ => "edgeCreated"
  | .edgeRemoved _ _ _ => "edgeRemoved"
  | .ghostEdgeCreated _ _ => "ghostEdgeCreated"
  | .ghostEdgeDestroyed _ _ => "ghostEdgeDestroyed"
  | .instanceActiveStateChanged _ => "instanceActiveStateChanged"
  | .instanceStateChanged _ => "instanceStateChanged"
  | .otherAction t => t

/-- One entry of the devtools log. -/
structure LogEvent where
  id : Nat
  action : LogAction
deriving DecidableEq

/-- The edge-type filter: three optional boolean fields (`isExplicit`, `isExternal`,
`isStatic`); an `undefined` field does not constrain. -/
structure EdgeTypeFilter where
  isExplicit : Option Bool
  isExternal : Option Bool
  isStatic : Option Bool
deriving DecidableEq

/-- The filter configuration the `Log` component reads from its selectors. The list
filters are nullable arrays (`undefined` behaves as empty). -/
structure LogFilters where
  atomFilter : Option (List String)
  atomFlagsFilter : Option (List String)
  atomInstanceFilter : Option (List String)
  atomInstanceActiveStateFilter : Option (List String)
  atomInstanceKeyHashFilter : Option (List String)
  edgeTypeFilter : EdgeTypeFilter
  eventTypeFilter : Option (List String)
deriving DecidableEq

/-- `!x?.length` for a nullable array: true when the array is `undefined` or
empty. -/
def optListEmpty : Option (List α) → Bool
  | none => true
  | some l => l.isEmpty

/-- The no-filter test of the `filteredLog` memo (Log/index.tsx, lines 63-74): all
five list filters empty or undefined, all three edge-type fields undefined, and the
event-type filter empty or undefined. -/
def noFiltersSelected (f : LogFilters) : Bool :=
  optListEmpty f.atomFilter &&
  optListEmpty f.atomFlagsFilter &&
  optListEmpty f.atomInstanceActiveStateFilter &&
  optListEmpty f.atomInstanceFilter &&
  optListEmpty f.atomInstanceKeyHashFilter &&
  f.edgeTypeFilter.isExplicit.isNone &&
  f.edgeTypeFilter.isExternal.isNone &&
  f.edgeTypeFilter.isStatic.isNone &&
  optListEmpty f.eventTypeFilter

/-- The `edgePasses` helper (Log/index.tsx, lines 76-90): every defined edge-type
field must equal the edge's corresponding flag. -/
def edgePasses (f : LogFilters) (edge : EdgeInfo) : Bool :=
  (match f.edgeTypeFilter.isExplicit with
   | none => true
   | some b => edge.isExplicit == b) &&
  (match f.edgeTypeFilter.isExternal with
   | none => true
   | some b => edge.isExternal == b) &&
  (match f.edgeTypeFilter.isStatic with
   | none => true
   | some b => edge.isStatic == b)

/-- JS `haystack.includes(needle)` on strings: the empty needle always matches;
otherwise `splitOn` finds at least one occurrence. -/
def strIncludes (haystack needle : String) : Bool :=
  needle == "" || (haystack.splitOn needle).length != 1

/-- The `instancePasses` helper (Log/index.tsx, lines 92-117): the active-state
filter must pass; when any of the four identity filters is set, at least one of
them must match (key membership, shared flag, exact key hash, or case-insensitive
key-hash substring). -/
def instancePasses (f : LogFilters) (inst : InstInfo) : Bool :=
  let passesActiveStateFilter :=
    optListEmpty f.atomInstanceActiveStateFilter ||
    (f.atomInstanceActiveStateFilter.getD []).contains inst.activeState
  if optListEmpty f.atomFilter && optListEmpty f.atomFlagsFilter &&
      optListEmpty f.atomInstanceFilter && optListEmpty f.atomInstanceKeyHashFilter then
    passesActiveStateFilter
  else
    ((f.atomFilter.getD []).contains inst.atomKey ||
     (f.atomFlagsFilter.getD []).any (fun flag => (inst.atomFlags.getD []).contains flag) ||
     (f.atomInstanceFilter.getD []).contains inst.keyHash ||
     (f.atomInstanceKeyHashFilter.getD []).any fun ph =>
       strIncludes inst.keyHash.toLower ph.toLower) &&
    passesActiveStateFilter

/-- The predicate of the `log.filter` call (Log/index.tsx, lines 119-151): reject
events excluded by the event-type filter, then dispatch on the action type; any
action type other than the six known ones is filtered out. -/
def eventPasses (f : LogFilters) (event : LogEvent) : Bool :=
  if !optListEmpty f.eventTypeFilter &&
      !(f.eventTypeFilter.getD []).contains event.action.typeStr then
    false
  else
    match event.action with
    | .edgeCreated dependency dependent edge =>
        edgePasses f edge &&
          (instancePasses f dependency ||
            match dependent with
            | .depId _ => false
            | .depInst i => instancePasses f i)
    | .edgeRemoved dependency dependent edge =>
        edgePasses f edge &&
          (instancePasses f dependency ||
            match dependent with
            | .depId _ => false
            | .depInst i => instancePasses f i)
    | .ghostEdgeCreated edge dependency =>
        edgePasses f edge && instancePasses f dependency
    | .ghostEdgeDestroyed edge dependency =>
        edgePasses f edge && instancePasses f dependency
    | .instanceActiveStateChanged inst => instancePasses f inst
    | .instanceStateChanged inst => instancePasses f inst
    | .otherAction _ => false

/-- The six action types named by the `switch` cases of the log filter predicate
(Log/index.tsx, lines 127-147). -/
def knownEventTypes : List String :=
  ["edgeCreated", "edgeRemoved", "ghostEdgeCreated", "ghostEdgeDestroyed",
   "instanceActiveStateChanged", "instanceStateChanged"]

/-- The `filteredLog` memo (Log/index.tsx, lines 61-161): the whole log when no
filters are selected, and otherwise the events passing `eventPasses`. -/
def filteredLog (f : LogFilters) (log : List LogEvent) : List LogEvent :=
  if noFiltersSelected f then log
  else log.filter (eventPasses f)

/-! ## Theorems -/

/-- Claim C8: `isPlainObject` returns true exactly when its argument is a non-null
value of typeof 'object' whose prototype is non-null and whose prototype's prototype
is null; in particular it returns false for null, for every primitive, for every
array, and for every object created with `Object.create(null)`. -/
theorem C8_isPlainObject_characterization :
    (∀ v : JSValue, isPlainObject v = true ↔
      (jsTypeof v = "object" ∧ jsTruthy v = true ∧
        ∃ p, getPrototypeOf v = some p ∧ protoOfProto p = none)) ∧
    isPlainObject JSValue.vNull = false ∧
    isPlainObject JSValue.vUndefined = false ∧
    (∀ b, isPlainObject (JSValue.vBool b) = false) ∧
    (∀ n, isPlainObject (JSValue.vNum n) = false) ∧
    (∀ s, isPlainObject (JSValue.vStr s) = false) ∧
    isPlainObject JSValue.vFunction = false ∧
    isPlainObject JSValue.vArray = false ∧
    isPlainObject JSValue.vNoProtoObject = false := by
  refine ⟨fun v => ?_, by decide, by decide, fun b => by cases b <;> decide,
    fun n => ?_, fun s => ?_, by decide, by decide, by decide⟩
  · cases v <;>
      simp [isPlainObject, jsTypeof, jsTruthy, getPrototypeOf, protoChainLen,
        protoOfProto]
  · simp [isPlainObject, jsTypeof]
  · simp [isPlainObject, jsTypeof]

/-- Claim C2 counterexample: the code's `ActiveState` enum contains the member
`Destroying`, whose string value "Destroying" is not among the four states the
claim allows (Initializing, Active, Stale, Destroyed); the claimed `Stale` state
does not exist in the enum. -/
theorem C2_counterexample :
    ActiveState.toStr ActiveState.Destroying = "Destroying" ∧
    (["Initializing", "Active", "Stale", "Destroyed"].contains "Destroying") = false := by
  decide

/-- Claim C2 (amended): every atom instance's activeState is one of exactly the four
enum states Active, Destroyed, Destroying, Initializing — the code defines
`Destroying` in place of the claimed `Stale`, and no `Stale` state exists. -/
theorem C2_activeState_enum :
    (∀ s : ActiveState,
      (["Active", "Destroyed", "Destroying", "Initializing"].contains s.toStr) = true) ∧
    ActiveState.toStr ActiveState.Active = "Active" ∧
    ActiveState.toStr ActiveState.Destroyed = "Destroyed" ∧
    ActiveState.toStr ActiveState.Destroying = "Destroying" ∧
    ActiveState.toStr ActiveState.Initializing = "Initializing" ∧
    (∀ s : ActiveState, s.toStr ≠ "Stale") := by
  refine ⟨fun s => ?_, rfl, rfl, rfl, rfl, fun s => ?_⟩
  · cases s <;> decide
  · cases s <;> decide

/-- Claim C10: a falsy first argument makes `useAtom` throw a `TypeError` with no
atom created, and for the array-form first argument the created template's key is
the array's first element and the instantiation params are exactly the remaining
elements in order. -/
theorem C10_useAtom_key (α : Type) :
    (∀ arg : UseAtomKeyArg α, keyArgFalsy arg = true →
      useAtom arg =
        Except.error (JsError.typeError "Zedux - All atoms must have a key")) ∧
    (∀ (head : String) (rest : List α),
      useAtom (UseAtomKeyArg.arrKey head rest) =
        Except.ok { key := head, params := some rest }) := by
  constructor
  · intro arg h
    simp [useAtom, h]
  · intro head rest
    simp [useAtom, keyArgFalsy]

/-- Claim C10 witness: `useAtom` applied to a missing key and to the array form
`["count", 7, 8]`. -/
theorem C10_witness :
    useAtom (UseAtomKeyArg.nullArg : UseAtomKeyArg Nat) =
      Except.error (JsError.typeError "Zedux - All atoms must have a key") ∧
    useAtom (UseAtomKeyArg.arrKey "count" [7, 8]) =
      Except.ok { key := "count", params := some [7, 8] } :=
  ⟨(C10_useAtom_key Nat).1 UseAtomKeyArg.nullArg rfl,
    (C10_useAtom_key Nat).2 "count" [7, 8]⟩

/-- Claim C3: with a promise attached and `suspend` not equal to `false`, the hook
tail throws the instance's promise unchanged while the promise status is 'loading'
and the instance's promise error while it is 'error'; with `suspend = false` it
returns the instance without throwing in either case. -/
theorem C3_suspension (π ε : Type) (suspend : Option Bool) (inst : SuspInstance π ε)
    (hp : inst.promise.isSome = true) :
    (suspend ≠ some false → inst.promiseStatus = PromiseStatus.loading →
      suspendCheck suspend inst = Except.error (Thrown.promiseVal inst.promise)) ∧
    (suspend ≠ some false → inst.promiseStatus = PromiseStatus.error →
      suspendCheck suspend inst = Except.error (Thrown.errorVal inst.promiseError)) ∧
    suspendCheck (some false) inst = Except.ok inst := by
  refine ⟨fun h1 h2 => ?_, fun h1 h2 => ?_, ?_⟩
  · rw [suspendCheck, if_pos h1, if_pos h2]
  · rw [suspendCheck, if_pos h1, if_neg (by simp [h2]), if_pos h2]
  · rw [suspendCheck, if_neg (by simp)]

/-- Claim C3 witness: a loading instance with `suspend` left undefined throws its
promise. -/
theorem C3_witness :
    suspendCheck (none : Option Bool)
        ({ promise := some 1, promiseStatus := PromiseStatus.loading,
           promiseError := none } : SuspInstance Nat Nat) =
      Except.error (Thrown.promiseVal (some 1)) :=
  (C3_suspension Nat Nat none
      { promise := some 1, promiseStatus := PromiseStatus.loading,
        promiseError := none } rfl).1 (by decide) rfl

/-- Claim C4: every edge carrying the Static flag — in particular the edge created
by `useAtomInstance` when `subscribe` is not true, whose flags are
`External ||| Static` — is excluded from `stateChanged` delivery while it still
counts as a dependent (pinning the dependency's lifetime) and still receives
destroy signals. -/
theorem C4_static_edge (ν : Type) (g : Graph ν) (e : Edge ν)
    (he : e ∈ g.edges) (hs : e.flags &&& Static ≠ 0) :
    e ∉ deliveredEdges g e.toId Signal.stateChanged ∧
    e ∈ deliveredEdges g e.toId Signal.destroyed ∧
    e.fromId ∈ dependentsOf g e.toId ∧
    (∀ sub : Option Bool, sub ≠ some true →
      useAtomInstanceFlags sub = External ||| Static) ∧
    useAtomInstanceFlags none &&& Static ≠ 0 := by
  refine ⟨?_, ?_, ?_, fun sub hsub => ?_, by decide⟩
  · intro hmem
    rcases List.mem_filter.mp hmem with ⟨_, hcond⟩
    simp [deliversOn, hs] at hcond
  · exact List.mem_filter.mpr ⟨he, by simp [deliversOn]⟩
  · exact List.mem_map.mpr ⟨e, List.mem_filter.mpr ⟨he, by simp⟩, rfl⟩
  · simp [useAtomInstanceFlags, hsub]

/-- Claim C4 witness: the single static external edge of a one-edge graph is skipped
for `stateChanged`, kept for `destroyed`, and counted as a dependent. -/
theorem C4_witness :
    (⟨"cmp", "a1", External ||| Static, 0, "useAtomInstance"⟩ : Edge Nat) ∉
      deliveredEdges (⟨[⟨"cmp", "a1", External ||| Static, 0, "useAtomInstance"⟩]⟩ : Graph Nat)
        "a1" Signal.stateChanged ∧
    (⟨"cmp", "a1", External ||| Static, 0, "useAtomInstance"⟩ : Edge Nat) ∈
      deliveredEdges (⟨[⟨"cmp", "a1", External ||| Static, 0, "useAtomInstance"⟩]⟩ : Graph Nat)
        "a1" Signal.destroyed ∧
    "cmp" ∈ dependentsOf
      (⟨[⟨"cmp", "a1", External ||| Static, 0, "useAtomInstance"⟩]⟩ : Graph Nat) "a1" ∧
    (∀ sub : Option Bool, sub ≠ some true →
      useAtomInstanceFlags sub = External ||| Static) ∧
    useAtomInstanceFlags none &&& Static ≠ 0 :=
  C4_static_edge Nat ⟨[⟨"cmp", "a1", External ||| Static, 0, "useAtomInstance"⟩]⟩
    ⟨"cmp", "a1", External ||| Static, 0, "useAtomInstance"⟩ (by simp) (by decide)

/-- Claim C5: `addEdge` is idempotent on `(fromId, toId)`: starting from a graph
with no edge between the endpoints, after a second `addEdge` call with the same
endpoints exactly one edge between them exists, whose flags are the bitwise OR of
the first and second flag values and whose notify callback is the original one, not
the newly supplied one. -/
theorem C5_addEdge_idempotent (ν : Type) (g : Graph ν) (f t : String)
    (fl1 fl2 : Nat) (n1 n2 : ν) (op1 op2 : String)
    (h : edgesBetween g f t = []) :
    edgesBetween (addEdge (addEdge g f t fl1 n1 op1) f t fl2 n2 op2) f t =
      [⟨f, t, fl1 ||| fl2, n1, op1⟩] := by
  have hp : ∀ e ∈ g.edges, (e.fromId == f && e.toId == t) = false := by
    intro e hm
    have := List.filter_eq_nil_iff.mp h e hm
    simpa using this
  have hno : g.hasEdge f t = false := by
    rw [Graph.hasEdge, List.any_eq_false]
    intro e hm
    simp [hp e hm]
  have hg1 : addEdge g f t fl1 n1 op1 = ⟨g.edges ++ [⟨f, t, fl1, n1, op1⟩]⟩ := by
    rw [addEdge, if_neg (by simp [hno])]
  have hyes : (⟨g.edges ++ [⟨f, t, fl1, n1, op1⟩]⟩ : Graph ν).hasEdge f t = true := by
    simp [Graph.hasEdge]
  rw [hg1, addEdge, if_pos (by simp [hyes])]
  rw [edgesBetween]
  simp only [List.map_append, List.filter_append]
  have hmap : g.edges.map (fun e =>
      if e.fromId == f && e.toId == t then { e with flags := e.flags ||| fl2 }
      else e) = g.edges := by
    conv_rhs => rw [← List.map_id g.edges]
    apply List.map_congr_left
    intro e hm
    simp [hp e hm]
  rw [hmap]
  have hfil : g.edges.filter (fun e => e.fromId == f && e.toId == t) = [] := h
  rw [hfil]
  simp

/-- Claim C5 witness: two `addEdge` calls on the empty graph with the same endpoints
leave one edge with OR-merged flags and the first notify callback. -/
theorem C5_witness :
    edgesBetween
        (addEdge (addEdge (⟨[]⟩ : Graph Nat) "a" "b" 1 10 "op1") "a" "b" 6 20 "op2")
        "a" "b" =
      [⟨"a", "b", 1 ||| 6, 10, "op1"⟩] :=
  C5_addEdge_idempotent Nat ⟨[]⟩ "a" "b" 1 6 10 20 "op1" "op2" rfl

/-- Claim C6: removing the edge that was the last dependent of `toId` makes `toId`
eligible for ttl-based destruction; when `toId`'s ttl is 0 and it has no other
dependents, it is destroyed immediately, synchronously within the `removeEdge`
step. -/
theorem C6_removeEdge_last_dependent (ν : Type) (st : GraphState ν) (f t : String)
    (hlast : ∀ e ∈ st.edges, e.toId = t → e.fromId = f) :
    (ttlOf st t = some 0 →
      t ∈ (removeEdge st f t).destroyedIds ∧
        (removeEdge st f t).nodes.all (fun n => !(n.id == t)) = true) ∧
    (ttlOf st t ≠ some 0 → t ∈ (removeEdge st f t).eligible) := by
  have hany : (st.edges.filter fun e => !(e.fromId == f && e.toId == t)).any
      (fun e => e.toId == t) = false := by
    rw [List.any_eq_false]
    intro e he
    rcases List.mem_filter.mp he with ⟨hmem, hcond⟩
    intro htid
    have ht : e.toId = t := by simpa using htid
    have hf : e.fromId = f := hlast e hmem ht
    simp [hf, ht] at hcond
  constructor
  · intro httl
    rw [removeEdge]
    simp only [hany, Bool.false_eq_true, if_false, httl, if_pos]
    refine ⟨List.mem_cons_self _ _, ?_⟩
    rw [List.all_eq_true]
    intro n hn
    exact (List.mem_filter.mp hn).2
  · intro httl
    rw [removeEdge]
    simp only [hany, Bool.false_eq_true, if_false, if_neg httl]
    exact List.mem_cons_self _ _

/-- Claim C6 witness: removing the only dependent edge of a ttl-0 node destroys the
node within the same step. -/
theorem C6_witness :
    "a1" ∈ (removeEdge
        (⟨[⟨"a1", some 0⟩], [⟨"cmp", "a1", 6, 0, "op"⟩], [], []⟩ : GraphState Nat)
        "cmp" "a1").destroyedIds ∧
    (removeEdge
        (⟨[⟨"a1", some 0⟩], [⟨"cmp", "a1", 6, 0, "op"⟩], [], []⟩ : GraphState Nat)
        "cmp" "a1").nodes.all (fun n => !(n.id == "a1")) = true :=
  (C6_removeEdge_last_dependent Nat
      ⟨[⟨"a1", some 0⟩], [⟨"cmp", "a1", 6, 0, "op"⟩], [], []⟩ "cmp" "a1"
      (by decide)).1 rfl

/-- Helper: `getNode` when the registry already holds the instance id. -/
theorem getNode_found (eco : Eco ν) (t : Template) (ps : List ParamAtom)
    (inst : AtomInst)
    (h : lookupL eco.nodes ((resolveTemplate eco t).key ++ "-" ++ hashParams ps) =
      some inst) :
    getNode eco t ps = (inst, eco) := by
  rw [getNode]
  simp only [h]

/-- Helper: `getNode` when the instance id is not yet registered. -/
theorem getNode_missing (eco : Eco ν) (t : Template) (ps : List ParamAtom)
    (h : lookupL eco.nodes ((resolveTemplate eco t).key ++ "-" ++ hashParams ps) =
      none) :
    getNode eco t ps =
      (⟨(resolveTemplate eco t).key ++ "-" ++ hashParams ps,
          (resolveTemplate eco t).key, hashParams ps, (resolveTemplate eco t).factory,
          ActiveState.Active⟩,
        { eco with nodes :=
            ((resolveTemplate eco t).key ++ "-" ++ hashParams ps,
              ⟨(resolveTemplate eco t).key ++ "-" ++ hashParams ps,
                (resolveTemplate eco t).key, hashParams ps,
                (resolveTemplate eco t).factory, ActiveState.Active⟩) ::
              eco.nodes }) := by
  rw [getNode]
  simp only [h]

/-- Helper: inserting a node does not change the override table, so the resolved
effective template is unchanged. -/
theorem resolveTemplate_insert (eco : Eco ν) (t : Template) (p : String × AtomInst) :
    resolveTemplate { eco with nodes := p :: eco.nodes } t = resolveTemplate eco t :=
  rfl

/-- Claim C1: two `getNode` calls on the same ecosystem with the same template and
structurally equal parameter lists return the same atom instance — the second call
reuses the instance returned by the first and leaves the ecosystem unchanged. -/
theorem C1_getNode_uniqueness (ν : Type) (eco : Eco ν) (t : Template)
    (ps1 ps2 : List ParamAtom) (h : ps1 = ps2) :
    (getNode (getNode eco t ps1).2 t ps2).1 = (getNode eco t ps1).1 ∧
    (getNode (getNode eco t ps1).2 t ps2).2 = (getNode eco t ps1).2 := by
  subst h
  cases hl : lookupL eco.nodes ((resolveTemplate eco t).key ++ "-" ++ hashParams ps1) with
  | some inst =>
    rw [getNode_found eco t ps1 inst hl, getNode_found eco t ps1 inst hl]
    exact ⟨rfl, rfl⟩
  | none =>
    rw [getNode_missing eco t ps1 hl]
    have hfound : lookupL
        (((resolveTemplate eco t).key ++ "-" ++ hashParams ps1,
            (⟨(resolveTemplate eco t).key ++ "-" ++ hashParams ps1,
              (resolveTemplate eco t).key, hashParams ps1,
              (resolveTemplate eco t).factory, ActiveState.Active⟩ : AtomInst)) ::
          eco.nodes)
        ((resolveTemplate eco t).key ++ "-" ++ hashParams ps1) =
        some ⟨(resolveTemplate eco t).key ++ "-" ++ hashParams ps1,
          (resolveTemplate eco t).key, hashParams ps1,
          (resolveTemplate eco t).factory, ActiveState.Active⟩ := by
      simp [lookupL, List.find?]
    rw [getNode_found _ t ps1 _ hfound]
    exact ⟨rfl, rfl⟩

/-- Claim C1 witness: two `getNode` calls for template "count" with params `[1]` on
an initially empty ecosystem agree on the instance and on the ecosystem. -/
theorem C1_witness :
    (getNode (getNode (⟨[], [], [], [], []⟩ : Eco Nat) ⟨"count", "f1"⟩
        [ParamAtom.pNum 1]).2 ⟨"count", "f1"⟩ [ParamAtom.pNum 1]).1 =
      (getNode (⟨[], [], [], [], []⟩ : Eco Nat) ⟨"count", "f1"⟩
        [ParamAtom.pNum 1]).1 ∧
    (getNode (getNode (⟨[], [], [], [], []⟩ : Eco Nat) ⟨"count", "f1"⟩
        [ParamAtom.pNum 1]).2 ⟨"count", "f1"⟩ [ParamAtom.pNum 1]).2 =
      (getNode (⟨[], [], [], [], []⟩ : Eco Nat) ⟨"count", "f1"⟩
        [ParamAtom.pNum 1]).2 :=
  C1_getNode_uniqueness Nat ⟨[], [], [], [], []⟩ ⟨"count", "f1"⟩
    [ParamAtom.pNum 1] [ParamAtom.pNum 1] rfl

/-- Claim C7: after `overrides` replaces template `T` with `T2` (same key) while an
instance of `T` is live, the old instance is recorded as Destroyed and leaves the
registry, a subsequent `getNode T` yields an instance carrying `T2`'s factory, every
dependent of the prior instance is delivered a `destroyed` notification, and the
external dynamic dependent callback reacts to that signal by re-resolving the
instance rather than receiving a state value. -/
theorem C7_override_replacement (ν σ : Type) (eco : Eco ν) (T T2 : Template)
    (iid : String) (inst : AtomInst) (ps : List ParamAtom)
    (hk : T2.key = T.key)
    (hinst : (iid, inst) ∈ eco.nodes)
    (hik : inst.templateKey = T.key)
    (hfresh : ∀ p ∈ eco.nodes, p.1 = T.key ++ "-" ++ hashParams ps →
      p.2.templateKey = T.key) :
    { inst with activeState := ActiveState.Destroyed } ∈
      (applyOverrides eco [T2]).destroyedInstances ∧
    (iid, inst) ∉ (applyOverrides eco [T2]).nodes ∧
    (getNode (applyOverrides eco [T2]) T ps).1.factory = T2.factory ∧
    (∀ e ∈ eco.edges, e.toId = iid →
      (e.fromId, Signal.destroyed) ∈ (applyOverrides eco [T2]).notifications) ∧
    (∀ val : σ, dynamicDependentCallback Signal.destroyed val =
      DependentReaction.reResolveInstance) := by
  have hmarked : ([T2].any fun u => u.key == inst.templateKey) = true := by
    simp [hik, hk]
  refine ⟨?_, ?_, ?_, ?_, fun val => rfl⟩
  · rw [applyOverrides]
    simp only [List.mem_append, List.mem_map]
    right
    exact ⟨(iid, inst), List.mem_filter.mpr ⟨hinst, hmarked⟩, rfl⟩
  · rw [applyOverrides]
    intro hmem
    have := (List.mem_filter.mp hmem).2
    simp [hmarked] at this
  · have hres : resolveTemplate (applyOverrides eco [T2]) T = T2 := by
      simp [resolveTemplate, applyOverrides, lookupL, List.find?, hk]
    have hnone : lookupL (applyOverrides eco [T2]).nodes
        ((resolveTemplate (applyOverrides eco [T2]) T).key ++ "-" ++ hashParams ps) =
        none := by
      rw [hres, hk]
      rw [lookupL]
      have : ((applyOverrides eco [T2]).nodes.find? fun p =>
          p.1 == T.key ++ "-" ++ hashParams ps) = none := by
        rw [List.find?_eq_none]
        intro p hp hbeq
        have hpid : p.1 = T.key ++ "-" ++ hashParams ps := by simpa using hbeq
        have hnodes : (applyOverrides eco [T2]).nodes =
            eco.nodes.filter
              (fun q => !([T2].any fun u => u.key == q.2.templateKey)) := rfl
        rw [hnodes] at hp
        rcases List.mem_filter.mp hp with ⟨hpmem, hsurv⟩
        have hkey : p.2.templateKey = T.key := hfresh p hpmem hpid
        simp [hkey, hk] at hsurv
      rw [this]
      rfl
    rw [getNode_missing _ T ps hnone, hres]
  · intro e he hte
    rw [applyOverrides]
    simp only [List.mem_append]
    right
    simp only [List.mem_map]
    refine ⟨e, List.mem_filter.mpr ⟨he, ?_⟩, rfl⟩
    simp only [List.contains_eq_any_beq, List.any_eq_true]
    refine ⟨iid, ?_, by simp [hte]⟩
    simp only [List.mem_map]
    exact ⟨(iid, inst), List.mem_filter.mpr ⟨hinst, hmarked⟩, rfl⟩

/-- Claim C7 witness: overriding template "count" (factory f1, one live instance
with one dependent) with a same-key template carrying factory f2. -/
theorem C7_witness :
    ({ id := "count-n:1", templateKey := "count", paramsHash := "n:1",
        factory := "f1", activeState := ActiveState.Destroyed } : AtomInst) ∈
      (applyOverrides
          (⟨[("count-n:1", ⟨"count-n:1", "count", "n:1", "f1", ActiveState.Active⟩)],
            [], [⟨"cmp", "count-n:1", 6, 0, "op"⟩], [], []⟩ : Eco Nat)
          [⟨"count", "f2"⟩]).destroyedInstances ∧
    (("count-n:1", ⟨"count-n:1", "count", "n:1", "f1", ActiveState.Active⟩) :
        String × AtomInst) ∉
      (applyOverrides
          (⟨[("count-n:1", ⟨"count-n:1", "count", "n:1", "f1", ActiveState.Active⟩)],
            [], [⟨"cmp", "count-n:1", 6, 0, "op"⟩], [], []⟩ : Eco Nat)
          [⟨"count", "f2"⟩]).nodes ∧
    (getNode (applyOverrides
          (⟨[("count-n:1", ⟨"count-n:1", "count", "n:1", "f1", ActiveState.Active⟩)],
            [], [⟨"cmp", "count-n:1", 6, 0, "op"⟩], [], []⟩ : Eco Nat)
          [⟨"count", "f2"⟩]) ⟨"count", "f1"⟩ [ParamAtom.pNum 1]).1.factory = "f2" ∧
    (∀ e ∈ ([⟨"cmp", "count-n:1", 6, 0, "op"⟩] : List (Edge Nat)), e.toId = "count-n:1" →
      (e.fromId, Signal.destroyed) ∈
        (applyOverrides
            (⟨[("count-n:1", ⟨"count-n:1", "count", "n:1", "f1", ActiveState.Active⟩)],
              [], [⟨"cmp", "count-n:1", 6, 0, "op"⟩], [], []⟩ : Eco Nat)
            [⟨"count", "f2"⟩]).notifications) ∧
    (∀ val : Nat, dynamicDependentCallback Signal.destroyed val =
      DependentReaction.reResolveInstance) :=
  C7_override_replacement Nat Nat
    ⟨[("count-n:1", ⟨"count-n:1", "count", "n:1", "f1", ActiveState.Active⟩)],
      [], [⟨"cmp", "count-n:1", 6, 0, "op"⟩], [], []⟩
    ⟨"count", "f1"⟩ ⟨"count", "f2"⟩ "count-n:1"
    ⟨"count-n:1", "count", "n:1", "f1", ActiveState.Active⟩ [ParamAtom.pNum 1]
    rfl (by simp) rfl (by decide)

/-- Claim C9: for every log and filter configuration the filtered log is an
order-preserving subsequence of the input log; when no filters are selected it is
the input log itself; and when any filter is active, every event whose action type
is not one of edgeCreated, edgeRemoved, ghostEdgeCreated, ghostEdgeDestroyed,
instanceActiveStateChanged, instanceStateChanged is excluded. -/
theorem C9_filteredLog_shape (f : LogFilters) (log : List LogEvent) :
    List.Sublist (filteredLog f log) log ∧
    (noFiltersSelected f = true → filteredLog f log = log) ∧
    (∀ e ∈ log, noFiltersSelected f = false →
      (knownEventTypes.contains e.action.typeStr) = false →
      e ∉ filteredLog f log) := by
  refine ⟨?_, fun h => ?_, fun e hmem h1 h2 => ?_⟩
  · rw [filteredLog]
    by_cases h : noFiltersSelected f = true
    · rw [if_pos h]
    · rw [if_neg h]
      exact List.filter_sublist log
  · rw [filteredLog, if_pos h]
  · rw [filteredLog, if_neg (by simp [h1])]
    intro hmemf
    have hpass : eventPasses f e = true := (List.mem_filter.mp hmemf).2
    have hfail : eventPasses f e = false := by
      rcases e with ⟨i, act⟩
      cases act with
      | edgeCreated dependency dependent edge =>
        have h3 : (knownEventTypes.contains "edgeCreated") = false := h2
        exact absurd h3 (by decide)
      | edgeRemoved dependency dependent edge =>
        have h3 : (knownEventTypes.contains "edgeRemoved") = false := h2
        exact absurd h3 (by decide)
      | ghostEdgeCreated edge dependency =>
        have h3 : (knownEventTypes.contains "ghostEdgeCreated") = false := h2
        exact absurd h3 (by decide)
      | ghostEdgeDestroyed edge dependency =>
        have h3 : (knownEventTypes.contains "ghostEdgeDestroyed") = false := h2
        exact absurd h3 (by decide)
      | instanceActiveStateChanged inst =>
        have h3 : (knownEventTypes.contains "instanceActiveStateChanged") = false := h2
        exact absurd h3 (by decide)
      | instanceStateChanged inst =>
        have h3 : (knownEventTypes.contains "instanceStateChanged") = false := h2
        exact absurd h3 (by decide)
      | otherAction ty =>
        rw [eventPasses]
        exact ite_self false
    rw [hpass] at hfail
    exact absurd hfail (by decide)

/-- Claim C9 witness: with the atom filter active, an event of an unknown action
type is excluded from the filtered log. -/
theorem C9_witness :
    (⟨1, LogAction.otherAction "ecosystemWiped"⟩ : LogEvent) ∉
      filteredLog
        ⟨some ["count"], none, none, none, none, ⟨none, none, none⟩, none⟩
        [⟨1, LogAction.otherAction "ecosystemWiped"⟩] :=
  (C9_filteredLog_shape
      ⟨some ["count"], none, none, none, none, ⟨none, none, none⟩, none⟩
      [⟨1, LogAction.otherAction "ecosystemWiped"⟩]).2.2
    ⟨1, LogAction.otherAction "ecosystemWiped"⟩
    (List.mem_singleton.mpr rfl) (by decide) (by decide)

end Zedux
